import Mathlib

/-!
Shallow embedding of `src/dialogs/base_dialog.py` of the PartsTrack
repository, together with the pieces of the Qt widget API and of the
`elements` record layer that the dialog code calls.

State is passed explicitly: each Qt setter is a pure state update on a
widget record, and each `BaseDialog` method is a function from the dialog
state (and its arguments) to the new dialog state.  A second, `Except`
valued embedding of the same methods makes exception propagation from the
external libraries explicit.
-/

namespace PartsTrack

/-- Horizontal component of a Qt text alignment flag. -/
inductive HAlign
  | left
  | right
  | hcenter
deriving DecidableEq

/-- Vertical component of a Qt text alignment flag. -/
inductive VAlign
  | top
  | bottom
  | vcenter
deriving DecidableEq

/-- A Qt text alignment: one horizontal and one vertical component. -/
structure Alignment where
  h : HAlign
  v : VAlign
deriving DecidableEq

/-- The flag combination `Qt.AlignmentFlag.AlignHCenter | Qt.AlignmentFlag.AlignVCenter`. -/
def alignHCenterVCenter : Alignment := ⟨HAlign.hcenter, VAlign.vcenter⟩

/-- The flag combination `Qt.AlignmentFlag.AlignRight | Qt.AlignmentFlag.AlignVCenter`. -/
def alignRightVCenter : Alignment := ⟨HAlign.right, VAlign.vcenter⟩

/-- Section resize modes of `QHeaderView.ResizeMode`. -/
inductive ResizeMode
  | interactive
  | stretch
  | fixed
  | resizeToContents
deriving DecidableEq

/-- A `QTableWidgetItem`: display text plus an optional explicit alignment
set by `setTextAlignment`. -/
structure QTableWidgetItem where
  text : String
  alignment : Option Alignment
deriving DecidableEq

/-- The observable state of a `QTableWidget` touched by the dialog code:
row and column counts, header labels, per-column width and resize mode,
the cell items, and the current selection (carried along only to state
frame properties). -/
structure QTableWidget where
  rowCount : Nat
  columnCount : Nat
  headerLabels : List String
  columnWidth : Nat → Int
  resizeMode : Nat → ResizeMode
  item : Nat → Nat → Option QTableWidgetItem
  selection : List (Nat × Nat)

/-- `QTableWidget.setColumnCount`. -/
def QTableWidget.setColumnCount (t : QTableWidget) (n : Nat) : QTableWidget :=
  { t with columnCount := n }

/-- `QTableWidget.setHorizontalHeaderLabels`. -/
def QTableWidget.setHorizontalHeaderLabels (t : QTableWidget) (labels : List String) :
    QTableWidget :=
  { t with headerLabels := labels }

/-- `QTableWidget.setColumnWidth`. -/
def QTableWidget.setColumnWidth (t : QTableWidget) (i : Nat) (w : Int) : QTableWidget :=
  { t with columnWidth := fun j => if j = i then w else t.columnWidth j }

/-- `QHeaderView.setSectionResizeMode` on the table's horizontal header. -/
def QTableWidget.setSectionResizeMode (t : QTableWidget) (i : Nat) (m : ResizeMode) :
    QTableWidget :=
  { t with resizeMode := fun j => if j = i then m else t.resizeMode j }

/-- `QTableWidget.setRowCount`. -/
def QTableWidget.setRowCount (t : QTableWidget) (n : Nat) : QTableWidget :=
  { t with rowCount := n }

/-- `QTableWidget.setItem`. -/
def QTableWidget.setItem (t : QTableWidget) (r c : Nat) (it : QTableWidgetItem) :
    QTableWidget :=
  { t with item := fun r2 c2 => if r2 = r ∧ c2 = c then some it else t.item r2 c2 }

/-- A push button of the dialog form; the code only toggles `setEnabled`. -/
structure QPushButton where
  enabled : Bool
deriving DecidableEq

/-- `QPushButton.setEnabled`. -/
def QPushButton.setEnabled (b : QPushButton) (e : Bool) : QPushButton :=
  { b with enabled := e }

/-- Modelled from the spec: the `elements` module (`OrderLine` records of an
`OrderLineSet`) is not part of the shown source.  An order line record
carries exactly the fields that `fill_order_table_fields` reads through
getters. -/
structure OrderLine where
  order_number : String
  line : Int
  part_number : String
  cost_each : Rat
  quantity : Int
  remarks : String
deriving DecidableEq

/-- `OrderLine.get_order_number`. -/
def OrderLine.get_order_number (ol : OrderLine) : String := ol.order_number

/-- `OrderLine.get_line`. -/
def OrderLine.get_line (ol : OrderLine) : Int := ol.line

/-- `OrderLine.get_part_number`. -/
def OrderLine.get_part_number (ol : OrderLine) : String := ol.part_number

/-- `OrderLine.get_cost_each`. -/
def OrderLine.get_cost_each (ol : OrderLine) : Rat := ol.cost_each

/-- `OrderLine.get_quantity`. -/
def OrderLine.get_quantity (ol : OrderLine) : Int := ol.quantity

/-- `OrderLine.get_remarks`. -/
def OrderLine.get_remarks (ol : OrderLine) : String := ol.remarks

/-- Modelled from the spec: the `elements.Order` record, read through
`get_date` and `get_source` only. -/
structure Order where
  date : String
  source : String
deriving DecidableEq

/-- `Order.get_date`. -/
def Order.get_date (o : Order) : String := o.date

/-- `Order.get_source`. -/
def Order.get_source (o : Order) : String := o.source

/-- Modelled from the spec: the parts data file together with the query
layer.  `queryOrderLines pn` is the property set produced by
`OrderLineSet(file, "part_number", pn, "order_number")`, in query result
order; `lookupOrder n` is the record produced by `Order(file, n)`. -/
structure PartsFile where
  queryOrderLines : String → List OrderLine
  lookupOrder : String → Order

/-- Modelled from the spec: the third-party `lbk_library.gui.Dialog` base
class, of which the shown code uses only that it stores the data file and
returns it from `get_datafile`. -/
structure DialogState where
  datafile : PartsFile

/-- `Dialog.get_datafile`. -/
def Dialog.get_datafile (d : DialogState) : PartsFile := d.datafile

/-- The widgets of `self.form` that the shown code touches. -/
structure Form where
  save_new_button : QPushButton
  save_done_button : QPushButton
  order_table : QTableWidget

/-- The state of a `BaseDialog`: the inherited `Dialog` state plus `self.form`. -/
structure BaseDialogState extends DialogState where
  form : Form

/-- `BaseDialog.PART_ORDER_COL_NAMES`. -/
def BaseDialog.PART_ORDER_COL_NAMES : List String :=
  ["Order", "Date", "Source", "Line", "Part Number", "Cost Each", "Quantity", "Remarks"]

/-- `BaseDialog.PART_ORDER_COL_WIDTHS`. -/
def BaseDialog.PART_ORDER_COL_WIDTHS : List Int :=
  [60, 100, 60, 40, 120, 70, 100, 1]

/-- `BaseDialog.get_parts_file`: `return self.get_datafile()`. -/
def BaseDialog.get_parts_file (d : BaseDialogState) : PartsFile :=
  Dialog.get_datafile d.toDialogState

/-- The loop `for i in range(0, len(col_widths)): table.setColumnWidth(i, col_widths[i])`,
with the running index made explicit. -/
def setWidths : Nat → List Int → QTableWidget → QTableWidget
  | _, [], t => t
  | i, w :: rest, t => setWidths (i + 1) rest (t.setColumnWidth i w)

/-- `BaseDialog.set_table_header`. -/
def BaseDialog.set_table_header (table : QTableWidget) (col_names : List String)
    (col_widths : List Int) (stretch_column : Option Nat) : QTableWidget :=
  let t := table.setColumnCount col_names.length
  let t := t.setHorizontalHeaderLabels col_names
  let t := setWidths 0 col_widths t
  match stretch_column with
  | none => t
  | some c => t.setSectionResizeMode c ResizeMode.stretch

/-- `BaseDialog.save_buttons_enable`. -/
def BaseDialog.save_buttons_enable (d : BaseDialogState) (enable : Bool) : BaseDialogState :=
  { d with form := { d.form with
      save_new_button := d.form.save_new_button.setEnabled enable,
      save_done_button := d.form.save_done_button.setEnabled enable } }

/-- The floor of `n / d + 1/2` for a positive denominator `d`: half-up
rounding of the fraction `n / d` to the nearest integer.  Used to model the
rounding to hundredths performed by `".2f"`. -/
def roundHalfUpFrac (n d : Int) : Int :=
  Int.fdiv (2 * n + d) (2 * d)

/-- `format(float(x), ".2f")`: an amount rendered with exactly two digits
after the decimal point.  `100 * q` is taken on the exact numerator and
denominator of `q`; the binary float's round-half-even at the third decimal
is modelled by rational half-up rounding. -/
def fmt2 (q : Rat) : String :=
  let cents : Int := roundHalfUpFrac (100 * q.num) (q.den : Int)
  let n : Nat := cents.natAbs
  (if cents < 0 then "-" else "") ++ toString (n / 100) ++ "." ++
    String.mk [Nat.digitChar (n / 10 % 10), Nat.digitChar (n % 10)]

/-- The body of the `for order_line in order_lines` loop of
`fill_order_table_fields`: build and place the eight cells of one row. -/
def fillRow (pf : PartsFile) (t : QTableWidget) (row : Nat) (ol : OrderLine) : QTableWidget :=
  let order := pf.lookupOrder ol.get_order_number
  let t := t.setItem row 0 ⟨ol.get_order_number, some alignHCenterVCenter⟩
  let t := t.setItem row 1 ⟨order.get_date, some alignHCenterVCenter⟩
  let t := t.setItem row 2 ⟨order.get_source, none⟩
  let t := t.setItem row 3 ⟨toString ol.get_line, some alignHCenterVCenter⟩
  let t := t.setItem row 4 ⟨ol.get_part_number, none⟩
  let t := t.setItem row 5 ⟨fmt2 ol.get_cost_each, some alignRightVCenter⟩
  let t := t.setItem row 6 ⟨toString ol.get_quantity, some alignHCenterVCenter⟩
  t.setItem row 7 ⟨ol.get_remarks, none⟩

/-- The `for order_line in order_lines` loop with its explicit `row`
counter, starting at the given row and incremented once per order line. -/
def fillRows (pf : PartsFile) : Nat → List OrderLine → QTableWidget → QTableWidget
  | _, [], t => t
  | row, ol :: rest, t => fillRows pf (row + 1) rest (fillRow pf t row ol)

/-- `BaseDialog.fill_order_table_fields`. -/
def BaseDialog.fill_order_table_fields (d : BaseDialogState) (part_number : String) :
    BaseDialogState :=
  let query := (BaseDialog.get_parts_file d).queryOrderLines part_number
  let order_lines := if part_number = "" then [] else query
  let table := d.form.order_table.setRowCount order_lines.length
  let table := fillRows (BaseDialog.get_parts_file d) 0 order_lines table
  { d with form := { d.form with order_table := table } }

/-- The Qt widget primitives as possibly-raising operations: each call
either returns the updated widget state or raises an exception of type `ε`. -/
structure ToolkitE (ε : Type) where
  setColumnCount : QTableWidget → Nat → Except ε QTableWidget
  setHorizontalHeaderLabels : QTableWidget → List String → Except ε QTableWidget
  setColumnWidth : QTableWidget → Nat → Int → Except ε QTableWidget
  setSectionResizeMode : QTableWidget → Nat → ResizeMode → Except ε QTableWidget
  setRowCount : QTableWidget → Nat → Except ε QTableWidget
  setItem : QTableWidget → Nat → Nat → QTableWidgetItem → Except ε QTableWidget
  setEnabled : QPushButton → Bool → Except ε QPushButton

/-- The data-access layer as possibly-raising operations. -/
structure PartsFileE (ε : Type) where
  queryOrderLines : String → Except ε (List OrderLine)
  lookupOrder : String → Except ε Order

/-- The toolkit whose every primitive raises `e`. -/
def failToolkit {ε : Type} (e : ε) : ToolkitE ε where
  setColumnCount := fun _ _ => .error e
  setHorizontalHeaderLabels := fun _ _ => .error e
  setColumnWidth := fun _ _ _ => .error e
  setSectionResizeMode := fun _ _ _ => .error e
  setRowCount := fun _ _ => .error e
  setItem := fun _ _ _ _ => .error e
  setEnabled := fun _ _ => .error e

/-- The toolkit whose primitives never raise and perform the pure updates. -/
def okToolkit {ε : Type} : ToolkitE ε where
  setColumnCount := fun t n => .ok (t.setColumnCount n)
  setHorizontalHeaderLabels := fun t l => .ok (t.setHorizontalHeaderLabels l)
  setColumnWidth := fun t i w => .ok (t.setColumnWidth i w)
  setSectionResizeMode := fun t i m => .ok (t.setSectionResizeMode i m)
  setRowCount := fun t n => .ok (t.setRowCount n)
  setItem := fun t r c it => .ok (t.setItem r c it)
  setEnabled := fun b e => .ok (b.setEnabled e)

/-- The data-access layer whose every call raises `e`. -/
def failPartsFile {ε : Type} (e : ε) : PartsFileE ε where
  queryOrderLines := fun _ => .error e
  lookupOrder := fun _ => .error e

/-- The width loop of `set_table_header` over raising primitives; the first
exception aborts the loop and is returned as is (there is no `try`). -/
def setWidthsE {ε : Type} (tk : ToolkitE ε) : Nat → List Int → QTableWidget →
    Except ε QTableWidget
  | _, [], t => .ok t
  | i, w :: rest, t =>
    match tk.setColumnWidth t i w with
    | .error e => .error e
    | .ok t2 => setWidthsE tk (i + 1) rest t2

/-- `BaseDialog.set_table_header` over raising primitives: the calls are
made in source order and the first exception is returned unchanged. -/
def set_table_headerE {ε : Type} (tk : ToolkitE ε) (table : QTableWidget)
    (col_names : List String) (col_widths : List Int) (stretch_column : Option Nat) :
    Except ε QTableWidget :=
  match tk.setColumnCount table col_names.length with
  | .error e => .error e
  | .ok t1 =>
    match tk.setHorizontalHeaderLabels t1 col_names with
    | .error e => .error e
    | .ok t2 =>
      match setWidthsE tk 0 col_widths t2 with
      | .error e => .error e
      | .ok t3 =>
        match stretch_column with
        | none => .ok t3
        | some c => tk.setSectionResizeMode t3 c ResizeMode.stretch

/-- `BaseDialog.save_buttons_enable` over raising primitives. -/
def save_buttons_enableE {ε : Type} (tk : ToolkitE ε) (form : Form) (enable : Bool) :
    Except ε Form :=
  match tk.setEnabled form.save_new_button enable with
  | .error e => .error e
  | .ok b1 =>
    match tk.setEnabled form.save_done_button enable with
    | .error e => .error e
    | .ok b2 => .ok { form with save_new_button := b1, save_done_button := b2 }

/-- The loop body of `fill_order_table_fields` over raising primitives. -/
def fillRowE {ε : Type} (tk : ToolkitE ε) (pf : PartsFileE ε) (t : QTableWidget)
    (row : Nat) (ol : OrderLine) : Except ε QTableWidget :=
  match pf.lookupOrder ol.get_order_number with
  | .error e => .error e
  | .ok order =>
    match tk.setItem t row 0 ⟨ol.get_order_number, some alignHCenterVCenter⟩ with
    | .error e => .error e
    | .ok t0 =>
      match tk.setItem t0 row 1 ⟨order.get_date, some alignHCenterVCenter⟩ with
      | .error e => .error e
      | .ok t1 =>
        match tk.setItem t1 row 2 ⟨order.get_source, none⟩ with
        | .error e => .error e
        | .ok t2 =>
          match tk.setItem t2 row 3 ⟨toString ol.get_line, some alignHCenterVCenter⟩ with
          | .error e => .error e
          | .ok t3 =>
            match tk.setItem t3 row 4 ⟨ol.get_part_number, none⟩ with
            | .error e => .error e
            | .ok t4 =>
              match tk.setItem t4 row 5 ⟨fmt2 ol.get_cost_each, some alignRightVCenter⟩ with
              | .error e => .error e
              | .ok t5 =>
                match tk.setItem t5 row 6 ⟨toString ol.get_quantity, some alignHCenterVCenter⟩ with
                | .error e => .error e
                | .ok t6 =>
                  match tk.setItem t6 row 7 ⟨ol.get_remarks, none⟩ with
                  | .error e => .error e
                  | .ok t7 => .ok t7

/-- The row loop of `fill_order_table_fields` over raising primitives. -/
def fillRowsE {ε : Type} (tk : ToolkitE ε) (pf : PartsFileE ε) :
    Nat → List OrderLine → QTableWidget → Except ε QTableWidget
  | _, [], t => .ok t
  | row, ol :: rest, t =>
    match fillRowE tk pf t row ol with
    | .error e => .error e
    | .ok t2 => fillRowsE tk pf (row + 1) rest t2

/-- `BaseDialog.fill_order_table_fields` over raising primitives: the
query runs first, then the empty-part-number guard, then the table calls;
the first exception is returned unchanged. -/
def fill_order_table_fieldsE {ε : Type} (tk : ToolkitE ε) (pf : PartsFileE ε)
    (form : Form) (part_number : String) : Except ε Form :=
  match pf.queryOrderLines part_number with
  | .error e => .error e
  | .ok query =>
    let order_lines := if part_number = "" then [] else query
    match tk.setRowCount form.order_table order_lines.length with
    | .error e => .error e
    | .ok table =>
      match fillRowsE tk pf 0 order_lines table with
      | .error e => .error e
      | .ok table2 => .ok { form with order_table := table2 }

/-- A concrete cost value, `3/2`. -/
def costThreeHalves : Rat := ⟨3, 2, by decide, by decide⟩

/-- A concrete order line used to instantiate theorems. -/
def witOrderLine : OrderLine :=
  { order_number := "24-001"
    line := 3
    part_number := "17005"
    cost_each := costThreeHalves
    quantity := 4
    remarks := "spare" }

/-- A concrete order record used to instantiate theorems. -/
def witOrder : Order := ⟨"2024-05-01", "Moss"⟩

/-- A concrete parts file: every part-number query returns the one order
line above (in particular the query for the empty part number does), and
every order lookup returns the order above. -/
def witPartsFile : PartsFile :=
  ⟨fun _ => [witOrderLine], fun _ => witOrder⟩

/-- A concrete empty table used to instantiate theorems. -/
def witTable : QTableWidget :=
  { rowCount := 0
    columnCount := 0
    headerLabels := []
    columnWidth := fun _ => 0
    resizeMode := fun _ => ResizeMode.interactive
    item := fun _ _ => none
    selection := [] }

/-- A concrete form used to instantiate theorems. -/
def witForm : Form := ⟨⟨false⟩, ⟨false⟩, witTable⟩

/-- A concrete dialog state used to instantiate theorems. -/
def witDialog : BaseDialogState := ⟨⟨witPartsFile⟩, witForm⟩

theorem setWidths_frame (l : List Int) : ∀ (i : Nat) (t : QTableWidget),
    ((setWidths i l t).rowCount = t.rowCount)
    ∧ ((setWidths i l t).columnCount = t.columnCount)
    ∧ ((setWidths i l t).headerLabels = t.headerLabels)
    ∧ (∀ j, (setWidths i l t).resizeMode j = t.resizeMode j)
    ∧ (∀ r c, (setWidths i l t).item r c = t.item r c)
    ∧ ((setWidths i l t).selection = t.selection) := by
  induction l with
  | nil => exact fun i t => ⟨rfl, rfl, rfl, fun _ => rfl, fun _ _ => rfl, rfl⟩
  | cons w rest ih => exact fun i t => ih (i + 1) (t.setColumnWidth i w)

theorem setWidths_width_ge (l : List Int) : ∀ (i j : Nat) (t : QTableWidget),
    i + l.length ≤ j → (setWidths i l t).columnWidth j = t.columnWidth j := by
  induction l with
  | nil => exact fun i j t _ => rfl
  | cons w rest ih =>
    intro i j t h
    have h2 : (i + 1) + rest.length ≤ j := by
      simp only [List.length_cons] at h
      omega
    have h3 := ih (i + 1) j (t.setColumnWidth i w) h2
    have hij : j ≠ i := by
      simp only [List.length_cons] at h
      omega
    calc (setWidths i (w :: rest) t).columnWidth j
        = (t.setColumnWidth i w).columnWidth j := h3
      _ = t.columnWidth j := by simp [QTableWidget.setColumnWidth, hij]

theorem setItem_item_self (t : QTableWidget) (r c : Nat) (it : QTableWidgetItem) :
    (t.setItem r c it).item r c = some it := by
  simp [QTableWidget.setItem]

theorem setItem_item_ne (t : QTableWidget) (r c : Nat) (it : QTableWidgetItem)
    (r2 c2 : Nat) (h : ¬(r2 = r ∧ c2 = c)) : (t.setItem r c it).item r2 c2 = t.item r2 c2 := by
  simp only [QTableWidget.setItem]
  rw [if_neg h]

theorem setItem_rowCount (t : QTableWidget) (r c : Nat) (it : QTableWidgetItem) :
    (t.setItem r c it).rowCount = t.rowCount := rfl

theorem fillRows_cons (pf : PartsFile) (ol : OrderLine) (rest : List OrderLine)
    (row : Nat) (t : QTableWidget) :
    fillRows pf row (ol :: rest) t = fillRows pf (row + 1) rest (fillRow pf t row ol) := rfl

theorem fillRow_rowCount (pf : PartsFile) (t : QTableWidget) (row : Nat) (ol : OrderLine) :
    (fillRow pf t row ol).rowCount = t.rowCount := by
  simp only [fillRow, setItem_rowCount]

theorem fillRow_item_self (pf : PartsFile) (t : QTableWidget) (row : Nat) (ol : OrderLine) :
    ((fillRow pf t row ol).item row 0
        = some ⟨ol.get_order_number, some alignHCenterVCenter⟩)
    ∧ ((fillRow pf t row ol).item row 1
        = some ⟨(pf.lookupOrder ol.get_order_number).get_date, some alignHCenterVCenter⟩)
    ∧ ((fillRow pf t row ol).item row 2
        = some ⟨(pf.lookupOrder ol.get_order_number).get_source, none⟩)
    ∧ ((fillRow pf t row ol).item row 3
        = some ⟨toString ol.get_line, some alignHCenterVCenter⟩)
    ∧ ((fillRow pf t row ol).item row 4
        = some ⟨ol.get_part_number, none⟩)
    ∧ ((fillRow pf t row ol).item row 5
        = some ⟨fmt2 ol.get_cost_each, some alignRightVCenter⟩)
    ∧ ((fillRow pf t row ol).item row 6
        = some ⟨toString ol.get_quantity, some alignHCenterVCenter⟩)
    ∧ ((fillRow pf t row ol).item row 7
        = some ⟨ol.get_remarks, none⟩) := by
  refine ⟨?_, ?_, ?_, ?_, ?_, ?_, ?_, ?_⟩ <;>
    · simp only [fillRow]
      simp [setItem_item_self, setItem_item_ne]

theorem fillRow_item_ne (pf : PartsFile) (t : QTableWidget) (row : Nat) (ol : OrderLine)
    (r c : Nat) (h : r ≠ row) : (fillRow pf t row ol).item r c = t.item r c := by
  simp only [fillRow]
  rw [setItem_item_ne, setItem_item_ne, setItem_item_ne, setItem_item_ne, setItem_item_ne,
    setItem_item_ne, setItem_item_ne, setItem_item_ne] <;>
    exact fun hc => absurd hc.1 h

theorem fillRows_rowCount (pf : PartsFile) (ols : List OrderLine) :
    ∀ (row : Nat) (t : QTableWidget), (fillRows pf row ols t).rowCount = t.rowCount := by
  induction ols with
  | nil => exact fun _ _ => rfl
  | cons ol rest ih =>
    intro row t
    rw [fillRows_cons, ih (row + 1) (fillRow pf t row ol), fillRow_rowCount]

theorem fillRows_item_lt (pf : PartsFile) (ols : List OrderLine) :
    ∀ (row : Nat) (t : QTableWidget) (r c : Nat), r < row →
      (fillRows pf row ols t).item r c = t.item r c := by
  induction ols with
  | nil => exact fun _ _ _ _ _ => rfl
  | cons ol rest ih =>
    intro row t r c h
    rw [fillRows_cons]
    calc (fillRows pf (row + 1) rest (fillRow pf t row ol)).item r c
        = (fillRow pf t row ol).item r c := ih (row + 1) _ r c (by omega)
      _ = t.item r c := fillRow_item_ne pf t row ol r c (by omega)

theorem fillRows_item_at (pf : PartsFile) (ols : List OrderLine) :
    ∀ (i : Nat) (hi : i < ols.length) (row : Nat) (t : QTableWidget),
    ((fillRows pf row ols t).item (row + i) 0
        = some ⟨(ols.get ⟨i, hi⟩).get_order_number, some alignHCenterVCenter⟩)
    ∧ ((fillRows pf row ols t).item (row + i) 1
        = some ⟨(pf.lookupOrder (ols.get ⟨i, hi⟩).get_order_number).get_date,
            some alignHCenterVCenter⟩)
    ∧ ((fillRows pf row ols t).item (row + i) 2
        = some ⟨(pf.lookupOrder (ols.get ⟨i, hi⟩).get_order_number).get_source, none⟩)
    ∧ ((fillRows pf row ols t).item (row + i) 3
        = some ⟨toString (ols.get ⟨i, hi⟩).get_line, some alignHCenterVCenter⟩)
    ∧ ((fillRows pf row ols t).item (row + i) 4
        = some ⟨(ols.get ⟨i, hi⟩).get_part_number, none⟩)
    ∧ ((fillRows pf row ols t).item (row + i) 5
        = some ⟨fmt2 (ols.get ⟨i, hi⟩).get_cost_each, some alignRightVCenter⟩)
    ∧ ((fillRows pf row ols t).item (row + i) 6
        = some ⟨toString (ols.get ⟨i, hi⟩).get_quantity, some alignHCenterVCenter⟩)
    ∧ ((fillRows pf row ols t).item (row + i) 7
        = some ⟨(ols.get ⟨i, hi⟩).get_remarks, none⟩) := by
  induction ols with
  | nil =>
    intro i hi
    exact absurd hi (by simp)
  | cons ol rest ih =>
    intro i hi row t
    cases i with
    | zero =>
      have key := fillRow_item_self pf t row ol
      have hstep : ∀ c, (fillRows pf row (ol :: rest) t).item (row + 0) c
          = (fillRow pf t row ol).item row c := by
        intro c
        rw [Nat.add_zero, fillRows_cons]
        exact fillRows_item_lt pf rest (row + 1) (fillRow pf t row ol) row c
          (Nat.lt_succ_self row)
      exact ⟨(hstep 0).trans key.1, (hstep 1).trans key.2.1, (hstep 2).trans key.2.2.1,
        (hstep 3).trans key.2.2.2.1, (hstep 4).trans key.2.2.2.2.1,
        (hstep 5).trans key.2.2.2.2.2.1, (hstep 6).trans key.2.2.2.2.2.2.1,
        (hstep 7).trans key.2.2.2.2.2.2.2⟩
    | succ j =>
      have hj : j < rest.length := by
        simp only [List.length_cons] at hi
        omega
      have hidx : row + (j + 1) = (row + 1) + j := by omega
      rw [hidx, fillRows_cons]
      exact ih j hj (row + 1) (fillRow pf t row ol)

theorem fmt2_shape (q : Rat) : ∃ a b : String, fmt2 q = a ++ "." ++ b ∧ b.length = 2 := by
  refine ⟨(if roundHalfUpFrac (100 * q.num) (q.den : Int) < 0 then "-" else "")
      ++ toString ((roundHalfUpFrac (100 * q.num) (q.den : Int)).natAbs / 100),
    String.mk [Nat.digitChar ((roundHalfUpFrac (100 * q.num) (q.den : Int)).natAbs / 10 % 10),
      Nat.digitChar ((roundHalfUpFrac (100 * q.num) (q.den : Int)).natAbs % 10)], rfl, rfl⟩

theorem fillRows_nil (pf : PartsFile) (row : Nat) (t : QTableWidget) :
    fillRows pf row [] t = t := rfl

theorem fill_order_table_eq (d : BaseDialogState) (pn : String) (h : pn ≠ "") :
    BaseDialog.fill_order_table_fields d pn
      = { d with form := { d.form with order_table :=
            (fillRows (BaseDialog.get_parts_file d) 0
              ((BaseDialog.get_parts_file d).queryOrderLines pn)
              (d.form.order_table.setRowCount
                ((BaseDialog.get_parts_file d).queryOrderLines pn).length)) } } := by
  simp only [BaseDialog.fill_order_table_fields, if_neg h]

theorem fill_order_table_empty (d : BaseDialogState) :
    BaseDialog.fill_order_table_fields d ("")
      = { d with form := { d.form with order_table :=
            (d.form.order_table.setRowCount 0) } } := by
  simp [BaseDialog.fill_order_table_fields, fillRows_nil]

theorem setRowCount_item (t : QTableWidget) (n r c : Nat) :
    (t.setRowCount n).item r c = t.item r c := rfl

theorem setRowCount_rowCount (t : QTableWidget) (n : Nat) :
    (t.setRowCount n).rowCount = n := rfl

/-- C1 (amended): for every non-empty part number,
`fill_order_table_fields` sets the order table's row count to exactly the
number of order lines the query returns, fills every cell of rows `0`
through `n - 1`, and puts the `i`-th order line's order number in row `i`
(one row per order line, in query order); for the empty part number the row
count is set to `0`. -/
theorem C1_row_count (d : BaseDialogState) (part_number : String) (h : part_number ≠ "") :
    ((BaseDialog.fill_order_table_fields d part_number).form.order_table.rowCount
        = ((BaseDialog.get_parts_file d).queryOrderLines part_number).length)
    ∧ (∀ i, i < ((BaseDialog.get_parts_file d).queryOrderLines part_number).length →
        ∀ c, c < 8 →
        ((BaseDialog.fill_order_table_fields d part_number).form.order_table.item i c).isSome
          = true)
    ∧ (∀ (i : Nat)
        (hi : i < ((BaseDialog.get_parts_file d).queryOrderLines part_number).length),
        (BaseDialog.fill_order_table_fields d part_number).form.order_table.item i 0
          = some ⟨(((BaseDialog.get_parts_file d).queryOrderLines part_number).get
              ⟨i, hi⟩).get_order_number, some alignHCenterVCenter⟩)
    ∧ (∀ d2 : BaseDialogState,
        (BaseDialog.fill_order_table_fields d2 ("")).form.order_table.rowCount = 0) := by
  have ht : (BaseDialog.fill_order_table_fields d part_number).form.order_table
      = fillRows (BaseDialog.get_parts_file d) 0
          ((BaseDialog.get_parts_file d).queryOrderLines part_number)
          (d.form.order_table.setRowCount
            ((BaseDialog.get_parts_file d).queryOrderLines part_number).length) := by
    rw [fill_order_table_eq d part_number h]
  refine ⟨?_, ?_, ?_, ?_⟩
  · rw [ht, fillRows_rowCount, setRowCount_rowCount]
  · intro i hilen c hc
    have key := fillRows_item_at (BaseDialog.get_parts_file d)
      ((BaseDialog.get_parts_file d).queryOrderLines part_number) i hilen 0
      (d.form.order_table.setRowCount
        ((BaseDialog.get_parts_file d).queryOrderLines part_number).length)
    rw [Nat.zero_add] at key
    interval_cases c
    · rw [ht, key.1]; rfl
    · rw [ht, key.2.1]; rfl
    · rw [ht, key.2.2.1]; rfl
    · rw [ht, key.2.2.2.1]; rfl
    · rw [ht, key.2.2.2.2.1]; rfl
    · rw [ht, key.2.2.2.2.2.1]; rfl
    · rw [ht, key.2.2.2.2.2.2.1]; rfl
    · rw [ht, key.2.2.2.2.2.2.2]; rfl
  · intro i hi
    have key := fillRows_item_at (BaseDialog.get_parts_file d)
      ((BaseDialog.get_parts_file d).queryOrderLines part_number) i hi 0
      (d.form.order_table.setRowCount
        ((BaseDialog.get_parts_file d).queryOrderLines part_number).length)
    rw [Nat.zero_add] at key
    rw [ht, key.1]
  · intro d2
    rw [fill_order_table_empty d2]
    rfl

/-- C1 counterexample: with a parts file whose query for the empty part
number returns one order line, `fill_order_table_fields` on the empty part
number sets the row count to `0`, not to the query's length `1`, so the
claim does not hold for every part number. -/
theorem C1_counterexample :
    ¬ ((BaseDialog.fill_order_table_fields witDialog ("")).form.order_table.rowCount
        = ((BaseDialog.get_parts_file witDialog).queryOrderLines ("")).length) := by
  decide

/-- C1 witness: the amended theorem applied to a concrete dialog state and
the non-empty part number `"17005"`. -/
theorem C1_witness :
    (("17005" : String) ≠ "")
    ∧ ((BaseDialog.fill_order_table_fields witDialog ("17005")).form.order_table.rowCount
        = ((BaseDialog.get_parts_file witDialog).queryOrderLines ("17005")).length) :=
  ⟨by decide, (C1_row_count witDialog ("17005") (by decide)).1⟩

/-- C2: in every filled row, columns 0 through 7 hold the order line's
order number, the corresponding order's date, the order's source, the line
number as a string, the order line's part number, the cost-each value
formatted with exactly two decimal places, the quantity as a string, and
the remarks, matching the fixed column layout. -/
theorem C2_order_table_cells (d : BaseDialogState) (part_number : String)
    (h : part_number ≠ "") (i : Nat)
    (hi : i < ((BaseDialog.get_parts_file d).queryOrderLines part_number).length) :
    (Option.map QTableWidgetItem.text
        ((BaseDialog.fill_order_table_fields d part_number).form.order_table.item i 0)
      = some (((BaseDialog.get_parts_file d).queryOrderLines part_number).get
          ⟨i, hi⟩).get_order_number)
    ∧ (Option.map QTableWidgetItem.text
        ((BaseDialog.fill_order_table_fields d part_number).form.order_table.item i 1)
      = some ((BaseDialog.get_parts_file d).lookupOrder
          (((BaseDialog.get_parts_file d).queryOrderLines part_number).get
            ⟨i, hi⟩).get_order_number).get_date)
    ∧ (Option.map QTableWidgetItem.text
        ((BaseDialog.fill_order_table_fields d part_number).form.order_table.item i 2)
      = some ((BaseDialog.get_parts_file d).lookupOrder
          (((BaseDialog.get_parts_file d).queryOrderLines part_number).get
            ⟨i, hi⟩).get_order_number).get_source)
    ∧ (Option.map QTableWidgetItem.text
        ((BaseDialog.fill_order_table_fields d part_number).form.order_table.item i 3)
      = some (toString (((BaseDialog.get_parts_file d).queryOrderLines part_number).get
          ⟨i, hi⟩).get_line))
    ∧ (Option.map QTableWidgetItem.text
        ((BaseDialog.fill_order_table_fields d part_number).form.order_table.item i 4)
      = some (((BaseDialog.get_parts_file d).queryOrderLines part_number).get
          ⟨i, hi⟩).get_part_number)
    ∧ (Option.map QTableWidgetItem.text
        ((BaseDialog.fill_order_table_fields d part_number).form.order_table.item i 5)
      = some (fmt2 (((BaseDialog.get_parts_file d).queryOrderLines part_number).get
          ⟨i, hi⟩).get_cost_each))
    ∧ (Option.map QTableWidgetItem.text
        ((BaseDialog.fill_order_table_fields d part_number).form.order_table.item i 6)
      = some (toString (((BaseDialog.get_parts_file d).queryOrderLines part_number).get
          ⟨i, hi⟩).get_quantity))
    ∧ (Option.map QTableWidgetItem.text
        ((BaseDialog.fill_order_table_fields d part_number).form.order_table.item i 7)
      = some (((BaseDialog.get_parts_file d).queryOrderLines part_number).get
          ⟨i, hi⟩).get_remarks)
    ∧ (∃ a b : String,
        Option.map QTableWidgetItem.text
          ((BaseDialog.fill_order_table_fields d part_number).form.order_table.item i 5)
          = some (a ++ "." ++ b) ∧ b.length = 2) := by
  have key := fillRows_item_at (BaseDialog.get_parts_file d)
    ((BaseDialog.get_parts_file d).queryOrderLines part_number) i hi 0
    (d.form.order_table.setRowCount
      ((BaseDialog.get_parts_file d).queryOrderLines part_number).length)
  rw [Nat.zero_add] at key
  have ht : (BaseDialog.fill_order_table_fields d part_number).form.order_table
      = fillRows (BaseDialog.get_parts_file d) 0
          ((BaseDialog.get_parts_file d).queryOrderLines part_number)
          (d.form.order_table.setRowCount
            ((BaseDialog.get_parts_file d).queryOrderLines part_number).length) := by
    rw [fill_order_table_eq d part_number h]
  refine ⟨?_, ?_, ?_, ?_, ?_, ?_, ?_, ?_, ?_⟩
  · rw [ht, key.1]; rfl
  · rw [ht, key.2.1]; rfl
  · rw [ht, key.2.2.1]; rfl
  · rw [ht, key.2.2.2.1]; rfl
  · rw [ht, key.2.2.2.2.1]; rfl
  · rw [ht, key.2.2.2.2.2.1]; rfl
  · rw [ht, key.2.2.2.2.2.2.1]; rfl
  · rw [ht, key.2.2.2.2.2.2.2]; rfl
  · obtain ⟨a, b, hab, hb⟩ := fmt2_shape
      ((((BaseDialog.get_parts_file d).queryOrderLines part_number).get
        ⟨i, hi⟩).get_cost_each)
    refine ⟨a, b, ?_, hb⟩
    rw [ht, key.2.2.2.2.2.1]
    exact congrArg some hab

/-- C2 witness: the theorem applied to a concrete dialog state, part number
`"17005"` and row `0`; the cost cell holds the formatted `3/2`. -/
theorem C2_witness :
    (("17005" : String) ≠ "")
    ∧ (Option.map QTableWidgetItem.text
        ((BaseDialog.fill_order_table_fields witDialog ("17005")).form.order_table.item 0 5)
        = some (fmt2 costThreeHalves)) :=
  ⟨by decide, (C2_order_table_cells witDialog ("17005") (by decide) 0 (by decide)).2.2.2.2.2.1⟩

/-- C3: `set_table_header` sets the table's column count to the length of
`col_names` and the header labels to `col_names`, so afterwards the column
count equals the number of header names. -/
theorem C3_set_table_header_columns (table : QTableWidget) (col_names : List String)
    (col_widths : List Int) (stretch_column : Option Nat) :
    ((BaseDialog.set_table_header table col_names col_widths stretch_column).columnCount
        = col_names.length)
    ∧ ((BaseDialog.set_table_header table col_names col_widths stretch_column).headerLabels
        = col_names)
    ∧ ((BaseDialog.set_table_header table col_names col_widths stretch_column).columnCount
        = (BaseDialog.set_table_header table col_names col_widths
            stretch_column).headerLabels.length) := by
  have h := setWidths_frame col_widths 0
    ((table.setColumnCount col_names.length).setHorizontalHeaderLabels col_names)
  cases stretch_column with
  | none =>
    refine ⟨h.2.1, h.2.2.1, ?_⟩
    rw [show (BaseDialog.set_table_header table col_names col_widths none).headerLabels
          = col_names from h.2.2.1]
    exact h.2.1
  | some c =>
    refine ⟨h.2.1, h.2.2.1, ?_⟩
    rw [show (BaseDialog.set_table_header table col_names col_widths (some c)).headerLabels
          = col_names from h.2.2.1]
    exact h.2.1

/-- C4: in every filled row the Cost Each cell (column 5) is right-aligned
and vertically centered, and the Order, Date, Line and Quantity cells
(columns 0, 1, 3, 6) are horizontally and vertically centered. -/
theorem C4_alignments (d : BaseDialogState) (part_number : String) (h : part_number ≠ "")
    (i : Nat)
    (hi : i < ((BaseDialog.get_parts_file d).queryOrderLines part_number).length) :
    (Option.map QTableWidgetItem.alignment
        ((BaseDialog.fill_order_table_fields d part_number).form.order_table.item i 5)
      = some (some alignRightVCenter))
    ∧ (Option.map QTableWidgetItem.alignment
        ((BaseDialog.fill_order_table_fields d part_number).form.order_table.item i 0)
      = some (some alignHCenterVCenter))
    ∧ (Option.map QTableWidgetItem.alignment
        ((BaseDialog.fill_order_table_fields d part_number).form.order_table.item i 1)
      = some (some alignHCenterVCenter))
    ∧ (Option.map QTableWidgetItem.alignment
        ((BaseDialog.fill_order_table_fields d part_number).form.order_table.item i 3)
      = some (some alignHCenterVCenter))
    ∧ (Option.map QTableWidgetItem.alignment
        ((BaseDialog.fill_order_table_fields d part_number).form.order_table.item i 6)
      = some (some alignHCenterVCenter))
    ∧ (alignRightVCenter.h = HAlign.right)
    ∧ (alignHCenterVCenter.h = HAlign.hcenter)
    ∧ (alignRightVCenter.v = VAlign.vcenter)
    ∧ (alignHCenterVCenter.v = VAlign.vcenter) := by
  have key := fillRows_item_at (BaseDialog.get_parts_file d)
    ((BaseDialog.get_parts_file d).queryOrderLines part_number) i hi 0
    (d.form.order_table.setRowCount
      ((BaseDialog.get_parts_file d).queryOrderLines part_number).length)
  rw [Nat.zero_add] at key
  have ht : (BaseDialog.fill_order_table_fields d part_number).form.order_table
      = fillRows (BaseDialog.get_parts_file d) 0
          ((BaseDialog.get_parts_file d).queryOrderLines part_number)
          (d.form.order_table.setRowCount
            ((BaseDialog.get_parts_file d).queryOrderLines part_number).length) := by
    rw [fill_order_table_eq d part_number h]
  refine ⟨?_, ?_, ?_, ?_, ?_, rfl, rfl, rfl, rfl⟩
  · rw [ht, key.2.2.2.2.2.1]; rfl
  · rw [ht, key.1]; rfl
  · rw [ht, key.2.1]; rfl
  · rw [ht, key.2.2.2.1]; rfl
  · rw [ht, key.2.2.2.2.2.2.1]; rfl

/-- C4 witness: the theorem applied to a concrete dialog state, part number
`"17005"` and row `0`. -/
theorem C4_witness :
    (("17005" : String) ≠ "")
    ∧ (Option.map QTableWidgetItem.alignment
        ((BaseDialog.fill_order_table_fields witDialog ("17005")).form.order_table.item 0 5)
        = some (some alignRightVCenter)) :=
  ⟨by decide, (C4_alignments witDialog ("17005") (by decide) 0 (by decide)).1⟩

/-- C5: the `BaseDialog` operations define no error policy: in the
`Except` embedding, an exception raised by a toolkit or data-access
primitive is returned unchanged by `set_table_headerE`,
`save_buttons_enableE` and `fill_order_table_fieldsE` (no catch, no
transformation, no recovery). -/
theorem C5_exceptions_propagate :
    (∀ (ε : Type) (e : ε) (table : QTableWidget) (col_names : List String)
        (col_widths : List Int) (stretch_column : Option Nat),
        set_table_headerE (failToolkit e) table col_names col_widths stretch_column
          = Except.error e)
    ∧ (∀ (ε : Type) (e : ε) (form : Form) (enable : Bool),
        save_buttons_enableE (failToolkit e) form enable = Except.error e)
    ∧ (∀ (ε : Type) (e : ε) (tk : ToolkitE ε) (form : Form) (part_number : String),
        fill_order_table_fieldsE tk (failPartsFile e) form part_number = Except.error e)
    ∧ (∀ (ε : Type) (e : ε) (ol : OrderLine) (form : Form) (part_number : String),
        part_number ≠ "" →
        fill_order_table_fieldsE okToolkit
          ⟨fun _ => Except.ok [ol], fun _ => Except.error e⟩ form part_number
          = Except.error e) := by
  refine ⟨fun ε e table ns ws sc => rfl, fun ε e form b => rfl,
    fun ε e tk form pn => rfl, ?_⟩
  intro ε e ol form pn h
  simp [fill_order_table_fieldsE, fillRowsE, fillRowE, okToolkit, h]

/-- C5 witness: a failing `Order` lookup during the fill of a non-empty
part number propagates its error unchanged. -/
theorem C5_witness :
    (("A" : String) ≠ "")
    ∧ (fill_order_table_fieldsE okToolkit
        ⟨fun _ => Except.ok [witOrderLine], fun _ => Except.error (0 : Nat)⟩ witForm ("A")
        = Except.error 0) :=
  ⟨by decide, C5_exceptions_propagate.2.2.2 Nat 0 witOrderLine witForm ("A") (by decide)⟩

/-- C6: `PART_ORDER_COL_NAMES` is exactly the eight fixed column names in
order, and `PART_ORDER_COL_WIDTHS` has the same length `8`. -/
theorem C6_column_constants :
    (BaseDialog.PART_ORDER_COL_NAMES
        = ["Order", "Date", "Source", "Line", "Part Number", "Cost Each", "Quantity", "Remarks"])
    ∧ (BaseDialog.PART_ORDER_COL_NAMES.length = 8)
    ∧ (BaseDialog.PART_ORDER_COL_WIDTHS.length = 8)
    ∧ (BaseDialog.PART_ORDER_COL_NAMES.length = BaseDialog.PART_ORDER_COL_WIDTHS.length) :=
  ⟨rfl, rfl, rfl, rfl⟩

/-- C7: `save_buttons_enable` sets the enabled state of both save buttons
to its argument, so both are enabled exactly when the argument is true. -/
theorem C7_save_buttons (d : BaseDialogState) (enable : Bool) :
    ((BaseDialog.save_buttons_enable d enable).form.save_new_button.enabled = enable)
    ∧ ((BaseDialog.save_buttons_enable d enable).form.save_done_button.enabled = enable)
    ∧ (((BaseDialog.save_buttons_enable d enable).form.save_new_button.enabled = true)
        ↔ enable = true)
    ∧ (((BaseDialog.save_buttons_enable d enable).form.save_done_button.enabled = true)
        ↔ enable = true) :=
  ⟨rfl, rfl, Iff.rfl, Iff.rfl⟩

/-- C8: for the empty part number, `fill_order_table_fields` sets the row
count to `0` and writes no cell (nor any other table component), while the
query is still constructed first, as the `Except` embedding shows: a
failing query on the empty part number still raises. -/
theorem C8_empty_part_number (d : BaseDialogState) :
    ((BaseDialog.fill_order_table_fields d ("")).form.order_table.rowCount = 0)
    ∧ (∀ r c, (BaseDialog.fill_order_table_fields d ("")).form.order_table.item r c
        = d.form.order_table.item r c)
    ∧ ((BaseDialog.fill_order_table_fields d ("")).form.order_table.columnCount
        = d.form.order_table.columnCount)
    ∧ ((BaseDialog.fill_order_table_fields d ("")).form.order_table.headerLabels
        = d.form.order_table.headerLabels)
    ∧ (∀ (ε : Type) (e : ε) (tk : ToolkitE ε) (form : Form),
        fill_order_table_fieldsE tk (failPartsFile e) form ("") = Except.error e) := by
  refine ⟨?_, ?_, ?_, ?_, fun ε e tk form => rfl⟩ <;>
    · rw [fill_order_table_empty d]
      first
      | rfl
      | exact fun r c => rfl

/-- C9: `get_parts_file` is a pure alias of the inherited
`Dialog.get_datafile`: on every dialog state the two return the same
parts file. -/
theorem C9_get_parts_file_alias (d : BaseDialogState) :
    BaseDialog.get_parts_file d = Dialog.get_datafile d.toDialogState := rfl

/-- C10: `set_table_header` changes only the column count, the header
labels, the widths of the first `len(col_widths)` columns and, when a
stretch column is given, that one column's resize mode; rows, cells,
selection and all other widths and resize modes are untouched. -/
theorem C10_set_table_header_frame (table : QTableWidget) (col_names : List String)
    (col_widths : List Int) (stretch_column : Option Nat) :
    ((BaseDialog.set_table_header table col_names col_widths stretch_column).rowCount
        = table.rowCount)
    ∧ (∀ r c, (BaseDialog.set_table_header table col_names col_widths stretch_column).item r c
        = table.item r c)
    ∧ ((BaseDialog.set_table_header table col_names col_widths stretch_column).selection
        = table.selection)
    ∧ (∀ i, col_widths.length ≤ i →
        (BaseDialog.set_table_header table col_names col_widths stretch_column).columnWidth i
          = table.columnWidth i)
    ∧ (stretch_column = none → ∀ i,
        (BaseDialog.set_table_header table col_names col_widths stretch_column).resizeMode i
          = table.resizeMode i)
    ∧ (∀ c, stretch_column = some c → ∀ i, i ≠ c →
        (BaseDialog.set_table_header table col_names col_widths stretch_column).resizeMode i
          = table.resizeMode i) := by
  have h := setWidths_frame col_widths 0
    ((table.setColumnCount col_names.length).setHorizontalHeaderLabels col_names)
  cases stretch_column with
  | none =>
    refine ⟨h.1, h.2.2.2.2.1, h.2.2.2.2.2, ?_, ?_, ?_⟩
    · intro i hi
      exact setWidths_width_ge col_widths 0 i _ (by omega)
    · intro _ i
      exact h.2.2.2.1 i
    · intro c hc
      exact absurd hc (by simp)
  | some c =>
    refine ⟨h.1, h.2.2.2.2.1, h.2.2.2.2.2, ?_, ?_, ?_⟩
    · intro i hi
      exact setWidths_width_ge col_widths 0 i _ (by omega)
    · intro hnone
      exact absurd hnone (by simp)
    · intro c2 hc2 i hi
      have hic : i ≠ c := by
        rw [Option.some.inj hc2]
        exact hi
      calc (BaseDialog.set_table_header table col_names col_widths (some c)).resizeMode i
          = (setWidths 0 col_widths
              ((table.setColumnCount col_names.length).setHorizontalHeaderLabels
                col_names)).resizeMode i := by
            simp [BaseDialog.set_table_header, QTableWidget.setSectionResizeMode, hic]
        _ = table.resizeMode i := h.2.2.2.1 i

/-- C10 witness: the frame theorem applied to a concrete table with the
fixed eight columns and stretch column `7`: column `9`'s width and resize
mode are untouched. -/
theorem C10_witness :
    (BaseDialog.PART_ORDER_COL_WIDTHS.length ≤ 9)
    ∧ ((9 : Nat) ≠ 7)
    ∧ ((BaseDialog.set_table_header witTable BaseDialog.PART_ORDER_COL_NAMES
        BaseDialog.PART_ORDER_COL_WIDTHS (some 7)).columnWidth 9 = witTable.columnWidth 9)
    ∧ ((BaseDialog.set_table_header witTable BaseDialog.PART_ORDER_COL_NAMES
        BaseDialog.PART_ORDER_COL_WIDTHS (some 7)).resizeMode 9 = witTable.resizeMode 9) := by
  have h := C10_set_table_header_frame witTable BaseDialog.PART_ORDER_COL_NAMES
    BaseDialog.PART_ORDER_COL_WIDTHS (some 7)
  exact ⟨by decide, by decide, h.2.2.2.1 9 (by decide), h.2.2.2.2.2 7 rfl 9 (by decide)⟩

end PartsTrack
